import Mathlib

/-!
# Dicyanin Viewer — verification of the frame-processing core

Shallow embedding of the per-pixel color transform, the frame loop, the
render loop and the recording session of `src/app.js` (class
`DicyaninViewer`), together with proofs of the spec's testable properties.

Numeric model: JavaScript number arithmetic is embedded as exact rational
arithmetic (`ℚ`); every property proved here has a margin far larger than
any double-rounding error of the original floats.  Byte stores into the
`Uint8ClampedArray` backing an `ImageData` clamp to [0,255] and round to
nearest with ties to even; this is modelled by `storeByte`.
-/

namespace Dicyanin

/-! ## Constants of `applyDicyaninFilter` (src/app.js lines 219–225) -/

def redTransmission : ℚ := 0.25
def greenTransmission : ℚ := 0.05
def blueTransmission : ℚ := 0.95
def darknessFactor : ℚ := 0.55
def violetMix : ℚ := 0.18
def contrastBoost : ℚ := 1.2
def contrastMidpoint : ℚ := 128

/-! ## Per-pixel transform (src/app.js lines 227–246)

The loop body reads `r = data[i]`, `g = data[i+1]`, `b = data[i+2]`,
computes the filtered values, blends with the original by `intensity`
and writes the clamped results back.  The alpha byte `data[i+3]` is
never read or written. -/

/-- `let filteredR = r * redTransmission` (line 232). -/
def spectralR (r : ℚ) : ℚ := r * redTransmission

/-- `let filteredG = g * greenTransmission` (line 233). -/
def spectralG (g : ℚ) : ℚ := g * greenTransmission

/-- `let filteredB = (b * blueTransmission) + (r * violetMix)` (line 234). -/
def spectralB (r b : ℚ) : ℚ := b * blueTransmission + r * violetMix

/-- `filteredX *= darknessFactor` (lines 236–238). -/
def darken (x : ℚ) : ℚ := x * darknessFactor

/-- `filteredX = ((filteredX - contrastMidpoint) * contrastBoost) + contrastMidpoint`
(lines 240–242). -/
def contrastStep (x : ℚ) : ℚ := (x - contrastMidpoint) * contrastBoost + contrastMidpoint

/-- The fully filtered red value of lines 232/236/240. -/
def filteredR (r : ℚ) : ℚ := contrastStep (darken (spectralR r))

/-- The fully filtered green value of lines 233/237/241. -/
def filteredG (g : ℚ) : ℚ := contrastStep (darken (spectralG g))

/-- The fully filtered blue value of lines 234/238/242. -/
def filteredB (r b : ℚ) : ℚ := contrastStep (darken (spectralB r b))

/-- `original * (1 - intensity) + filtered * intensity` (lines 244–246). -/
def blend (orig f t : ℚ) : ℚ := orig * (1 - t) + f * t

/-- `Math.max(0, Math.min(255, x))` (lines 244–246). -/
def clamp255 (x : ℚ) : ℚ := max 0 (min 255 x)

/-- The red channel written by line 244, before the byte store. -/
def outR (r t : ℚ) : ℚ := clamp255 (blend r (filteredR r) t)

/-- The green channel written by line 245, before the byte store. -/
def outG (g t : ℚ) : ℚ := clamp255 (blend g (filteredG g) t)

/-- The blue channel written by line 246, before the byte store. -/
def outB (r b t : ℚ) : ℚ := clamp255 (blend b (filteredB r b) t)

/-- ColorTransform: one pixel's RGB, as the real-valued results of the
assignments on lines 244–246 of `applyDicyaninFilter`. -/
def colorTransform (r g b t : ℚ) : ℚ × ℚ × ℚ := (outR r t, outG g t, outB r b t)

/-! ## Byte store into `Uint8ClampedArray` -/

/-- Round to nearest integer, ties to even: the conversion a
`Uint8ClampedArray` element assignment performs after clamping. -/
def roundHalfEven (q : ℚ) : ℤ :=
  if q - Int.floor q < 1/2 then Int.floor q
  else if 1/2 < q - Int.floor q then Int.floor q + 1
  else if Int.floor q % 2 = 0 then Int.floor q else Int.floor q + 1

/-- The byte actually stored by `data[i] = Math.max(0, Math.min(255, x))`:
the code clamps, then the clamped-array element conversion rounds
half-to-even. -/
def storeByte (x : ℚ) : ℕ := (roundHalfEven (clamp255 x)).toNat

/-! ## FrameProcessor: the whole-buffer loop (src/app.js lines 227–247)

`for (let i = 0; i < data.length; i += 4)` walks the buffer in groups of
four bytes.  The loop performs no length validation.  When the buffer
length is not a multiple of 4, the final iteration still runs: in
JavaScript, reading `data[i+1]` or `data[i+2]` past the end of a
`Uint8ClampedArray` yields `undefined`, arithmetic on `undefined` yields
`NaN`, and an element store past the end is dropped; a store whose index
is in bounds always has a finite value, because it only depends on bytes
that were read in bounds.  The trailing 1-, 2- and 3-byte cases below are
therefore exactly the observable effect of the final iteration. -/

def applyDicyaninFilterFrame (t : ℚ) : List ℕ → List ℕ
  | r :: g :: b :: a :: rest =>
      storeByte (blend r (filteredR r) t) :: storeByte (blend g (filteredG g) t) ::
      storeByte (blend b (filteredB r b) t) :: a :: applyDicyaninFilterFrame t rest
  | [r, g, b] =>
      [storeByte (blend r (filteredR r) t), storeByte (blend g (filteredG g) t),
       storeByte (blend b (filteredB r b) t)]
  | [r, g] =>
      [storeByte (blend r (filteredR r) t), storeByte (blend g (filteredG g) t)]
  | [r] => [storeByte (blend r (filteredR r) t)]
  | [] => []

/-- Error taxonomy named by the specification for a malformed buffer. -/
inductive FrameError
  | invalidFrame

/-- The observable result of running `applyDicyaninFilter` on a buffer.
The loop body (lines 227–247) contains no length check and no throwing
operation — out-of-bounds reads evaluate to `undefined`, not an
exception, and out-of-bounds writes are dropped — so the function
completes normally on every buffer, of any length. -/
def frameResult (t : ℚ) (buf : List ℕ) : Except FrameError (List ℕ) :=
  Except.ok (applyDicyaninFilterFrame t buf)

/-! ## Reference pipeline, from the specification's words -/

/-- Modelled from the spec: the 5-step reference pipeline of §4.1 —
spectral pass (`fr = r*0.25`, `fg = g*0.05`, `fb = b*0.95 + r*0.18`),
darkness scale by `0.55`, contrast `(f - 128) * 1.2 + 128`, blend
`out = original * (1 - t) + f * t`, clamp to `[0, 255]` — transcribed
step by step from the spec text, to be compared with `colorTransform`,
which is transcribed from the code. -/
def dicyaninReferencePixel (r g b t : ℚ) : ℚ × ℚ × ℚ :=
  let fr := r * 0.25
  let fg := g * 0.05
  let fb := b * 0.95 + r * 0.18
  let fr2 := fr * 0.55
  let fg2 := fg * 0.55
  let fb2 := fb * 0.55
  let fr3 := (fr2 - 128) * 1.2 + 128
  let fg3 := (fg2 - 128) * 1.2 + 128
  let fb3 := (fb2 - 128) * 1.2 + 128
  (max 0 (min 255 (r * (1 - t) + fr3 * t)),
   max 0 (min 255 (g * (1 - t) + fg3 * t)),
   max 0 (min 255 (b * (1 - t) + fb3 * t)))

/-! ## RenderLoop (src/app.js lines 178–189 and 252–269)

`startProcessing`/`stopProcessing` toggle `isProcessing`;
`processFrame` is the per-tick callback scheduled through
`requestAnimationFrame`.  The model keeps the fields the callback reads
(`isProcessing`, `filterEnabled`, `intensity`) plus a `pending` flag that
is true exactly when an animation-frame callback is scheduled
(`animationId` live); `cancelAnimationFrame` in `stopProcessing` clears
it.  JavaScript is single-threaded, so a tick runs the callback against
one snapshot of the state; state mutation happens only between ticks. -/

structure LoopState where
  isProcessing : Bool
  filterEnabled : Bool
  intensity : ℚ
  pending : Bool

/-- `stopProcessing` (lines 184–189): clear `isProcessing` and cancel the
scheduled animation frame. -/
def stopProcessing (s : LoopState) : LoopState :=
  { s with isProcessing := false, pending := false }

/-- One invocation of the `processFrame` callback (lines 252–269) on the
frame pulled from the video element: return immediately when
`isProcessing` is false (no present, no reschedule); otherwise present
the filtered frame when `filterEnabled && intensity > 0` and the raw
frame when not, then schedule the next tick.  The second component is
the presented frame, `none` when nothing is presented. -/
def processFrameTick (s : LoopState) (frame : List ℕ) : LoopState × Option (List ℕ) :=
  if s.isProcessing = false then (s, none)
  else
    ({ s with pending := true },
     some (if s.filterEnabled = true ∧ 0 < s.intensity then
             applyDicyaninFilterFrame s.intensity frame
           else frame))

/-- The scheduler fires the callback only when one is scheduled; firing
consumes the scheduled slot. -/
def schedulerTick (s : LoopState) (frame : List ℕ) : LoopState × Option (List ℕ) :=
  if s.pending = true then processFrameTick { s with pending := false } frame else (s, none)

/-- Run a sequence of scheduler ticks, collecting every presented frame. -/
def runTicks : LoopState → List (List ℕ) → LoopState × List (List ℕ)
  | s, [] => (s, [])
  | s, f :: fs =>
      let r := schedulerTick s f
      let rest := runTicks r.1 fs
      (rest.1, r.2.toList ++ rest.2)

/-! ## RecordingSession (src/app.js lines 561–676)

`startRecording` creates a `MediaRecorder`, sets `isRecording`, and
schedules `setTimeout(() => { if (this.isRecording) this.stopRecording() },
this.maxRecordingDuration)`.  `stopRecording` is guarded by
`if (this.mediaRecorder && this.isRecording)` and calls
`mediaRecorder.stop()`, which finalizes the recorded chunks into a blob
(via `onstop` → `processRecording`).  `finalizeCount` counts those
`mediaRecorder.stop()` calls. -/

/-- `this.maxRecordingDuration = 30000` (src/app.js line 68). -/
def maxRecordingDuration : ℕ := 30000

structure RecState where
  isRecording : Bool
  hasRecorder : Bool
  finalizeCount : ℕ

/-- Recording state before any session. -/
def recInit : RecState := { isRecording := false, hasRecorder := false, finalizeCount := 0 }

/-- `startRecording` (lines 569–624): create the recorder and set
`isRecording = true`. -/
def startRecording (s : RecState) : RecState :=
  { s with hasRecorder := true, isRecording := true }

/-- `stopRecording` (lines 642–658): only when a recorder exists and
`isRecording` is set, stop the recorder (finalizing the chunks) and
clear `isRecording`. -/
def stopRecording (s : RecState) : RecState :=
  if s.hasRecorder = true ∧ s.isRecording = true then
    { s with isRecording := false, finalizeCount := s.finalizeCount + 1 }
  else s

/-- The auto-stop timeout callback scheduled by `startRecording`
(lines 614–618): `if (this.isRecording) this.stopRecording()`.  With
idealized timers it fires `maxRecordingDuration` milliseconds after
record-start. -/
def autoStopTimeout (s : RecState) : RecState :=
  if s.isRecording = true then stopRecording s else s

/-- The instant the auto-stop timeout fires, for a recording started at
`startTime` (idealized `setTimeout` semantics). -/
def autoStopFireTime (startTime : ℕ) : ℕ := startTime + maxRecordingDuration

/-- Events that can reach the recording state machine after a session is
running: an explicit user stop, or the auto-stop timeout firing. -/
inductive RecEvent
  | userStop
  | timeout

def recStep (s : RecState) : RecEvent → RecState
  | RecEvent.userStop => stopRecording s
  | RecEvent.timeout => autoStopTimeout s

def recRun : RecState → List RecEvent → RecState
  | s, [] => s
  | s, e :: es => recRun (recStep s e) es

/-! ## Helper lemmas -/

lemma clamp255_nonneg (x : ℚ) : 0 ≤ clamp255 x := le_max_left 0 _

lemma clamp255_le_255 (x : ℚ) : clamp255 x ≤ 255 :=
  max_le (by norm_num) (min_le_left 255 x)

lemma clamp255_mono {x y : ℚ} (h : x ≤ y) : clamp255 x ≤ clamp255 y :=
  max_le_max le_rfl (min_le_min le_rfl h)

lemma clamp255_eq_self {x : ℚ} (h0 : 0 ≤ x) (h1 : x ≤ 255) : clamp255 x = x := by
  unfold clamp255
  rw [min_eq_right h1, max_eq_right h0]

lemma clamp255_eq_zero {x : ℚ} (h : x ≤ 0) : clamp255 x = 0 := by
  unfold clamp255
  rw [min_eq_right (by linarith), max_eq_left h]

lemma roundHalfEven_mono {x y : ℚ} (h : x ≤ y) : roundHalfEven x ≤ roundHalfEven y := by
  have hf : (Int.floor x : ℤ) ≤ Int.floor y := Int.floor_mono h
  rcases lt_or_eq_of_le hf with hlt | heq
  · have h1 : roundHalfEven x ≤ Int.floor x + 1 := by
      unfold roundHalfEven; split_ifs <;> omega
    have h2 : (Int.floor y : ℤ) ≤ roundHalfEven y := by
      unfold roundHalfEven; split_ifs <;> omega
    omega
  · have hx : x - ((Int.floor y : ℤ) : ℚ) ≤ y - ((Int.floor y : ℤ) : ℚ) := by linarith
    unfold roundHalfEven
    rw [heq]
    split_ifs <;> first | omega | linarith [hx]

lemma roundHalfEven_intCast (n : ℤ) : roundHalfEven (n : ℚ) = n := by
  unfold roundHalfEven
  rw [Int.floor_intCast]
  norm_num

lemma storeByte_mono {x y : ℚ} (h : x ≤ y) : storeByte x ≤ storeByte y :=
  Int.toNat_le_toNat (roundHalfEven_mono (clamp255_mono h))

lemma storeByte_natCast {n : ℕ} (h : n ≤ 255) : storeByte (n : ℚ) = n := by
  unfold storeByte
  rw [clamp255_eq_self (by positivity) (by exact_mod_cast h)]
  rw [show ((n : ℚ)) = ((n : ℤ) : ℚ) by push_cast; ring, roundHalfEven_intCast]
  exact Int.toNat_natCast n

lemma blend_zero (x f : ℚ) : blend x f 0 = x := by unfold blend; ring

lemma blend_one (x f : ℚ) : blend x f 1 = f := by unfold blend; ring

lemma applyDicyaninFilterFrame_length (t : ℚ) :
    ∀ buf : List ℕ, (applyDicyaninFilterFrame t buf).length = buf.length
  | r :: g :: b :: a :: rest => by
      simp [applyDicyaninFilterFrame, applyDicyaninFilterFrame_length t rest]
  | [r, g, b] => by simp [applyDicyaninFilterFrame]
  | [r, g] => by simp [applyDicyaninFilterFrame]
  | [r] => by simp [applyDicyaninFilterFrame]
  | [] => rfl

lemma applyDicyaninFilterFrame_alpha (t : ℚ) :
    ∀ (buf : List ℕ) (i : ℕ), i % 4 = 3 →
      (applyDicyaninFilterFrame t buf).get? i = buf.get? i
  | r :: g :: b :: a :: rest, i, h => by
      match i, h with
      | 0, h => omega
      | 1, h => omega
      | 2, h => omega
      | 3, _ => simp [applyDicyaninFilterFrame]
      | n + 4, h =>
        have ih := applyDicyaninFilterFrame_alpha t rest n (by omega)
        simp only [applyDicyaninFilterFrame]
        simpa using ih
  | [r, g, b], i, h => by
      match i, h with
      | 0, h => omega
      | 1, h => omega
      | 2, h => omega
      | n + 3, _ => simp [applyDicyaninFilterFrame]
  | [r, g], i, h => by
      match i, h with
      | 0, h => omega
      | 1, h => omega
      | n + 2, _ => simp [applyDicyaninFilterFrame]
  | [r], i, h => by
      match i, h with
      | 0, h => omega
      | n + 1, _ => simp [applyDicyaninFilterFrame]
  | [], _, _ => rfl

lemma applyDicyaninFilterFrame_zero :
    ∀ buf : List ℕ, (∀ x ∈ buf, x ≤ 255) → applyDicyaninFilterFrame 0 buf = buf
  | r :: g :: b :: a :: rest, h => by
      have ih := applyDicyaninFilterFrame_zero rest (fun x hx => h x (by simp [hx]))
      simp [applyDicyaninFilterFrame, blend_zero, ih,
        storeByte_natCast (h r (by simp)), storeByte_natCast (h g (by simp)),
        storeByte_natCast (h b (by simp))]
  | [r, g, b], h => by
      simp [applyDicyaninFilterFrame, blend_zero,
        storeByte_natCast (h r (by simp)), storeByte_natCast (h g (by simp)),
        storeByte_natCast (h b (by simp))]
  | [r, g], h => by
      simp [applyDicyaninFilterFrame, blend_zero,
        storeByte_natCast (h r (by simp)), storeByte_natCast (h g (by simp))]
  | [r], h => by
      simp [applyDicyaninFilterFrame, blend_zero, storeByte_natCast (h r (by simp))]
  | [], _ => rfl

lemma storeByte_of_nonpos {x : ℚ} (h : x ≤ 0) : storeByte x = 0 := by
  unfold storeByte
  rw [clamp255_eq_zero h]
  have h0 : roundHalfEven (0 : ℚ) = 0 := by simpa using roundHalfEven_intCast 0
  rw [h0]
  rfl

lemma runTicks_stopped (s : LoopState) (hp : s.isProcessing = false) (hq : s.pending = false) :
    ∀ frames, runTicks s frames = (s, [])
  | [] => rfl
  | f :: fs => by
      simp [runTicks, schedulerTick, hq, runTicks_stopped s hp hq fs]

lemma recStep_stopped {s : RecState} (h : s.isRecording = false) (e : RecEvent) :
    recStep s e = s := by
  cases e <;> simp [recStep, stopRecording, autoStopTimeout, h]

lemma recRun_stopped {s : RecState} (h : s.isRecording = false) :
    ∀ evs, recRun s evs = s
  | [] => rfl
  | e :: es => by
      simp only [recRun, recStep_stopped h]
      exact recRun_stopped h es

/-! ## The claims -/

/-- C1: at intensity `t = 1` the code's per-pixel transform agrees with
the spec's 5-step reference pipeline for every input pixel, and on the
literal case `r = g = b = 255` the frame output byte triple is
`(16, 0, 165)`, within one byte of the spec's rounded figure
`(17, 0, 165)` on every channel. -/
theorem colorTransform_full_intensity_matches_reference :
    (∀ r g b : ℚ, colorTransform r g b 1 = dicyaninReferencePixel r g b 1) ∧
    applyDicyaninFilterFrame 1 [255, 255, 255, 255] = [16, 0, 165, 255] ∧
    ((16 : ℤ) - 17).natAbs ≤ 1 ∧ ((0 : ℤ) - 0).natAbs ≤ 1 ∧ ((165 : ℤ) - 165).natAbs ≤ 1 := by
  refine ⟨fun r g b => ?_, ?_, by decide, by decide, by decide⟩
  · simp only [colorTransform, dicyaninReferencePixel, outR, outG, outB, blend, clamp255,
      filteredR, filteredG, filteredB, contrastStep, darken, spectralR, spectralG, spectralB,
      redTransmission, greenTransmission, blueTransmission, violetMix, darknessFactor,
      contrastBoost, contrastMidpoint]
  · norm_num [applyDicyaninFilterFrame, storeByte, clamp255, blend, filteredR, filteredG,
      filteredB, contrastStep, darken, spectralR, spectralG, spectralB, redTransmission,
      greenTransmission, blueTransmission, violetMix, darknessFactor, contrastBoost,
      contrastMidpoint, roundHalfEven, Int.floor_eq_iff]
    omega

/-- C2 counterexample: on the malformed buffer `[255,255,255,255,10]`
(length 5, not a multiple of 4) `applyDicyaninFilter` does not fail with
an `InvalidFrame` error — it completes normally, silently processing the
truncated trailing pixel. -/
theorem frameProcessor_malformed_no_invalid_frame_error :
    frameResult 1 [255, 255, 255, 255, 10] = Except.ok [16, 0, 165, 255, 0] ∧
    frameResult 1 [255, 255, 255, 255, 10] ≠ Except.error FrameError.invalidFrame := by
  constructor
  · unfold frameResult
    refine congrArg Except.ok ?_
    norm_num [applyDicyaninFilterFrame, storeByte, clamp255, blend, filteredR, filteredG,
      filteredB, contrastStep, darken, spectralR, spectralG, spectralB, redTransmission,
      greenTransmission, blueTransmission, violetMix, darknessFactor, contrastBoost,
      contrastMidpoint, roundHalfEven, Int.floor_eq_iff]
    omega
  · intro h
    exact Except.noConfusion h

/-- C2 amended: `applyDicyaninFilter` performs no buffer validation and
never raises an error on any buffer — malformed lengths included — and
always returns a buffer of the input's length. -/
theorem frameProcessor_total_and_length_preserving (t : ℚ) (buf : List ℕ) :
    frameResult t buf = Except.ok (applyDicyaninFilterFrame t buf) ∧
    (applyDicyaninFilterFrame t buf).length = buf.length :=
  ⟨rfl, applyDicyaninFilterFrame_length t buf⟩

/-- C3: at intensity `t = 0` the transform is the exact identity on
every channel of every in-range pixel, and the whole-frame pass returns
a byte-identical buffer. -/
theorem colorTransform_zero_intensity_identity :
    (∀ r g b : ℚ, 0 ≤ r → r ≤ 255 → 0 ≤ g → g ≤ 255 → 0 ≤ b → b ≤ 255 →
      colorTransform r g b 0 = (r, g, b)) ∧
    ∀ buf : List ℕ, (∀ x ∈ buf, x ≤ 255) → applyDicyaninFilterFrame 0 buf = buf := by
  constructor
  · intro r g b hr0 hr1 hg0 hg1 hb0 hb1
    simp only [colorTransform, outR, outG, outB, blend_zero]
    rw [clamp255_eq_self hr0 hr1, clamp255_eq_self hg0 hg1, clamp255_eq_self hb0 hb1]
  · exact applyDicyaninFilterFrame_zero

theorem colorTransform_zero_intensity_identity_witness :
    colorTransform 10 20 30 0 = (10, 20, 30) ∧
    applyDicyaninFilterFrame 0 [250, 1, 2, 3, 4] = [250, 1, 2, 3, 4] :=
  ⟨colorTransform_zero_intensity_identity.1 10 20 30 (by norm_num) (by norm_num) (by norm_num)
      (by norm_num) (by norm_num) (by norm_num),
   colorTransform_zero_intensity_identity.2 [250, 1, 2, 3, 4] (by decide)⟩

/-- C4: every output channel of the transform lies in `[0, 255]` for
every input and every intensity — the final hard clamp guarantees it
unconditionally. -/
theorem colorTransform_output_in_range (r g b t : ℚ) :
    (0 ≤ (colorTransform r g b t).1 ∧ (colorTransform r g b t).1 ≤ 255) ∧
    (0 ≤ (colorTransform r g b t).2.1 ∧ (colorTransform r g b t).2.1 ≤ 255) ∧
    (0 ≤ (colorTransform r g b t).2.2 ∧ (colorTransform r g b t).2.2 ≤ 255) := by
  simp only [colorTransform, outR, outG, outB]
  exact ⟨⟨clamp255_nonneg _, clamp255_le_255 _⟩, ⟨clamp255_nonneg _, clamp255_le_255 _⟩,
    ⟨clamp255_nonneg _, clamp255_le_255 _⟩⟩

/-- C5: the alpha byte (every index `i` with `i % 4 = 3`) is unchanged
by the whole-frame filter pass, for every buffer and every intensity. -/
theorem frameProcessor_alpha_invariant (t : ℚ) (buf : List ℕ) (i : ℕ) (h : i % 4 = 3) :
    (applyDicyaninFilterFrame t buf).get? i = buf.get? i :=
  applyDicyaninFilterFrame_alpha t buf i h

theorem frameProcessor_alpha_invariant_witness :
    3 % 4 = 3 ∧ (applyDicyaninFilterFrame 1 [9, 9, 9, 77]).get? 3 = [9, 9, 9, 77].get? 3 :=
  ⟨by decide, frameProcessor_alpha_invariant 1 [9, 9, 9, 77] 3 (by decide)⟩

/-- C6: for the fixed pixel `r = 200, g = 0, b = 0`, the red output
channel — both the real-valued channel and the stored byte — is
non-increasing as intensity grows in `[0, 1]`, because the filtered red
value lies below the original red at this input. -/
theorem red_channel_antitone_at_r200 (t₁ t₂ : ℚ) (h0 : 0 ≤ t₁) (h12 : t₁ ≤ t₂) (h1 : t₂ ≤ 1) :
    (colorTransform 200 0 0 t₂).1 ≤ (colorTransform 200 0 0 t₁).1 ∧
    storeByte (blend 200 (filteredR 200) t₂) ≤ storeByte (blend 200 (filteredR 200) t₁) := by
  have hf : filteredR 200 < 200 := by
    simp only [filteredR, contrastStep, darken, spectralR, redTransmission, darknessFactor,
      contrastBoost, contrastMidpoint]
    norm_num
  have hb : blend 200 (filteredR 200) t₂ ≤ blend 200 (filteredR 200) t₁ := by
    unfold blend
    nlinarith [mul_nonneg (sub_nonneg.mpr h12) (sub_nonneg.mpr hf.le)]
  simp only [colorTransform, outR]
  exact ⟨clamp255_mono hb, storeByte_mono hb⟩

theorem red_channel_antitone_at_r200_witness :
    (0 : ℚ) ≤ 0 ∧ (0 : ℚ) ≤ 1 ∧ (1 : ℚ) ≤ 1 ∧
    ((colorTransform 200 0 0 1).1 ≤ (colorTransform 200 0 0 0).1 ∧
     storeByte (blend 200 (filteredR 200) 1) ≤ storeByte (blend 200 (filteredR 200) 0)) :=
  ⟨by norm_num, by norm_num, by norm_num,
   red_channel_antitone_at_r200 0 1 (by norm_num) (by norm_num) (by norm_num)⟩

/-- C7: on a tick that runs while the loop is processing, the filtered
frame is presented exactly when `filterEnabled` is true and the
intensity is positive, and the raw frame is presented otherwise; the
tick computes from the one state snapshot it was invoked with. -/
theorem tick_presents_filtered_iff_enabled (s : LoopState) (f : List ℕ)
    (h : s.isProcessing = true) :
    (s.filterEnabled = true ∧ 0 < s.intensity →
      (processFrameTick s f).2 = some (applyDicyaninFilterFrame s.intensity f)) ∧
    (¬(s.filterEnabled = true ∧ 0 < s.intensity) → (processFrameTick s f).2 = some f) := by
  constructor <;> intro hc <;> simp [processFrameTick, h, hc]

def sampleLoopState : LoopState :=
  { isProcessing := true, filterEnabled := true, intensity := 1, pending := false }

theorem tick_presents_filtered_iff_enabled_witness :
    sampleLoopState.isProcessing = true ∧
    ((sampleLoopState.filterEnabled = true ∧ 0 < sampleLoopState.intensity →
       (processFrameTick sampleLoopState []).2 =
         some (applyDicyaninFilterFrame sampleLoopState.intensity [])) ∧
     (¬(sampleLoopState.filterEnabled = true ∧ 0 < sampleLoopState.intensity) →
       (processFrameTick sampleLoopState []).2 = some [])) :=
  ⟨rfl, tick_presents_filtered_iff_enabled sampleLoopState [] rfl⟩

/-- C8: after `stopProcessing` no scheduler tick ever presents a frame
again (the scheduled callback is cancelled, and a hypothetical in-flight
callback invocation performs no processing because `isProcessing` is
false), and `stopProcessing` is idempotent. -/
theorem stopProcessing_cancels_all_ticks (s : LoopState) (frames : List (List ℕ)) :
    (runTicks (stopProcessing s) frames).2 = [] ∧
    (∀ f : List ℕ, (processFrameTick (stopProcessing s) f).2 = none) ∧
    stopProcessing (stopProcessing s) = stopProcessing s := by
  refine ⟨?_, ?_, rfl⟩
  · rw [runTicks_stopped (stopProcessing s) rfl rfl frames]
  · intro f
    simp [processFrameTick, stopProcessing]

/-- C9: with idealized timers the auto-stop fires exactly
`maxRecordingDuration = 30000` milliseconds after record-start and
finalizes the session even absent an explicit stop; however many stop or
timeout events follow, the session stays finalized exactly once, and a
further explicit stop while not recording has no effect. -/
theorem recording_auto_finalizes_once :
    maxRecordingDuration = 30000 ∧
    (∀ startTime : ℕ, autoStopFireTime startTime = startTime + 30000) ∧
    (autoStopTimeout (startRecording recInit)).isRecording = false ∧
    (autoStopTimeout (startRecording recInit)).finalizeCount = 1 ∧
    (∀ evs : List RecEvent,
      (recRun (autoStopTimeout (startRecording recInit)) evs).finalizeCount = 1) ∧
    stopRecording (autoStopTimeout (startRecording recInit)) =
      autoStopTimeout (startRecording recInit) := by
  have hstate : autoStopTimeout (startRecording recInit) =
      { isRecording := false, hasRecorder := true, finalizeCount := 1 } := by
    simp [autoStopTimeout, startRecording, stopRecording, recInit]
  refine ⟨rfl, fun startTime => rfl, ?_, ?_, ?_, ?_⟩
  · rw [hstate]
  · rw [hstate]
  · intro evs
    rw [hstate, recRun_stopped rfl evs]
  · rw [hstate]
    simp [stopRecording]

/-- C10: at intensity `t = 1` the green output channel is exactly 0 for
every in-range pixel: the green chain `g·0.05·0.55` stays below the
contrast midpoint 128, the contrast step is therefore negative for all
`g ≤ 255`, and the clamp floors it to 0 — in the real-valued channel
and in the stored byte alike. -/
theorem green_channel_zero_at_full_intensity (r g b : ℚ) (hg : g ≤ 255) :
    darken (spectralG g) < contrastMidpoint ∧ filteredG g < 0 ∧
    (colorTransform r g b 1).2.1 = 0 ∧ storeByte (blend g (filteredG g) 1) = 0 := by
  have hmid : darken (spectralG g) < contrastMidpoint := by
    simp only [darken, spectralG, greenTransmission, darknessFactor, contrastMidpoint]
    linarith
  have hfg : filteredG g < 0 := by
    simp only [filteredG, contrastStep, darken, spectralG, greenTransmission, darknessFactor,
      contrastBoost, contrastMidpoint]
    linarith
  refine ⟨hmid, hfg, ?_, ?_⟩
  · simp only [colorTransform, outG]
    rw [blend_one, clamp255_eq_zero hfg.le]
  · rw [blend_one]
    exact storeByte_of_nonpos hfg.le

theorem green_channel_zero_at_full_intensity_witness :
    (255 : ℚ) ≤ 255 ∧
    (darken (spectralG 255) < contrastMidpoint ∧ filteredG 255 < 0 ∧
     (colorTransform 0 255 0 1).2.1 = 0 ∧ storeByte (blend 255 (filteredG 255) 1) = 0) :=
  ⟨by norm_num, green_channel_zero_at_full_intensity 0 255 0 (by norm_num)⟩

end Dicyanin
